import Mathlib

/-!
Shallow embedding of `rnn_gan.py` (Classical-Music-Generator): the RNN-GAN
model construction, the adversarial losses, the learning-rate schedule, the
epoch loop of `run_epoch`/`main`, and the startup configuration checks.

Real-valued tensor arithmetic is embedded over `ℝ`; numeric literals of the
source are read as the exact real value of the IEEE-754 double the Python
literal denotes (for every literal of the source except `1e-1000` that value
is the decimal value as written; `1e-1000` underflows to `0.0`, see
`clipEps`).  Batches are modelled per sequence:
one step of a sequence is a feature vector `Vec`.  The evaluation-time path
is embedded (`is_training = False`, or `keep_prob = 1`), where the dropout
branches of the source are inactive.
-/

namespace RnnGan

noncomputable section

/-- A feature (or hidden) vector: component `k` is the `k`-th coordinate.
Sizes are tracked by explicit dimension arguments to the layer functions. -/
abbrev Vec : Type := ℕ → ℝ

/-- The all-zero vector, used for `cell.zero_state`. -/
def zeroVec : Vec := fun _ => 0

/-- Parameters of one `linear` layer of the source: a weight matrix `w`
(indexed input-coordinate first, as in `tf.matmul(inp, w)`) and a bias `b`. -/
structure LinearParams where
  w : ℕ → ℕ → ℝ
  b : ℕ → ℝ

/-- Source function `linear`: `tf.matmul(inp, w) + b` for one row `inp` of the
batch, with `inDim` input coordinates.  (The `reuse_scope` flag of the source
only controls variable creation in the graph; in the embedding the parameter
record `p` is passed explicitly, so reuse is sharing of `p`.) -/
def linear (p : LinearParams) (inDim : ℕ) (x : Vec) : Vec :=
  fun o => (∑ k ∈ Finset.range inDim, x k * p.w k o) + p.b o

/-- The logistic function `tf.sigmoid`. -/
def sigmoid (x : ℝ) : ℝ := 1 / (1 + Real.exp (-x))

/-- State of one `BasicLSTMCell` layer (`state_is_tuple=True`): cell vector
`c` and hidden vector `h`. -/
structure LSTMState where
  c : Vec
  h : Vec

/-- The zero state produced by `cell.zero_state`. -/
def zeroLSTMState : LSTMState := ⟨zeroVec, zeroVec⟩

/-- Parameters of one `BasicLSTMCell` layer: the affine map computing the
four gates from the concatenated input and previous hidden state. -/
structure LSTMParams where
  gates : LinearParams

/-- One step of `tf.nn.rnn_cell.BasicLSTMCell` with `forget_bias` (the source
passes `forget_bias=1.0`): concatenate input and previous hidden state, apply
the gate affine map, split into gates `i, j, f, o` (each of width
`hiddenSize`), and form the new cell and hidden vectors. -/
def basicLSTMCell (hiddenSize inputSize : ℕ) (forgetBias : ℝ) (p : LSTMParams)
    (st : LSTMState) (x : Vec) : LSTMState :=
  let concat : Vec := fun k => if k < inputSize then x k else st.h (k - inputSize)
  let g : Vec := linear p.gates (inputSize + hiddenSize) concat
  let i : Vec := fun k => g k
  let j : Vec := fun k => g (hiddenSize + k)
  let f : Vec := fun k => g (2 * hiddenSize + k)
  let o : Vec := fun k => g (3 * hiddenSize + k)
  let c2 : Vec := fun k => st.c k * sigmoid (f k + forgetBias) + sigmoid (i k) * Real.tanh (j k)
  let h2 : Vec := fun k => Real.tanh (c2 k) * sigmoid (o k)
  ⟨c2, h2⟩

/-- One step of `tf.nn.rnn_cell.MultiRNNCell`: thread the input upward
through the per-layer cells (paired with their states); the first layer sees
`inSize` input coordinates, deeper layers see `hiddenSize`.  Returns the new
per-layer states and the top layer's output. -/
def multiRNNStep (hiddenSize : ℕ) :
    ℕ → List (LSTMParams × LSTMState) → Vec → List LSTMState × Vec
  | _, [], x => ([], x)
  | inSize, ps :: rest, x =>
    let st2 := basicLSTMCell hiddenSize inSize 1.0 ps.1 ps.2 x
    let r := multiRNNStep hiddenSize hiddenSize rest st2.h
    (st2 :: r.1, r.2)

/-- Source call `tf.nn.rnn(cell, inputs, initial_state)`: unroll the stacked
cell over the list of per-step inputs, collecting the top-layer output of
every step and the final state. -/
def rnn (hiddenSize inputSize : ℕ) (layers : List LSTMParams) :
    List LSTMState → List Vec → List Vec × List LSTMState
  | states, [] => ([], states)
  | states, x :: xs =>
    let step := multiRNNStep hiddenSize inputSize (layers.zip states) x
    let rest := rnn hiddenSize inputSize layers step.1 xs
    (step.2 :: rest.1, rest.2)

/-- `tf.reduce_mean` over a packed list of scalars. -/
def reduce_mean (l : List ℝ) : ℝ := l.sum / l.length

/-- `tf.reduce_mean` applied to a tensor that is already a scalar (as in the
loss expressions, whose operand is the scalar discriminator decision). -/
def reduce_mean_scalar (x : ℝ) : ℝ := x

/-- A configuration object (`SmallConfig`/`MediumConfig`/`LargeConfig`/
`TestConfig`).  `d_lr_factor` is an `Option` because `TestConfig` does not
define that attribute in the source. -/
structure Config where
  init_scale : ℝ
  learning_rate : ℝ
  d_lr_factor : Option ℝ
  max_grad_norm : ℝ
  num_layers : ℕ
  songlength : ℕ
  hidden_size : ℕ
  max_epoch : ℕ
  max_max_epoch : ℕ
  keep_prob : ℝ
  lr_decay : ℝ
  batch_size : ℕ
  vocab_size : ℕ

/-- Source class `SmallConfig`. -/
def SmallConfig : Config :=
  { init_scale := 0.1, learning_rate := 1.0, d_lr_factor := some 0.5,
    max_grad_norm := 5, num_layers := 2, songlength := 200, hidden_size := 200,
    max_epoch := 4, max_max_epoch := 13, keep_prob := 1.0, lr_decay := 0.9,
    batch_size := 10, vocab_size := 10000 }

/-- Source class `MediumConfig`. -/
def MediumConfig : Config :=
  { init_scale := 0.05, learning_rate := 1.0, d_lr_factor := some 0.5,
    max_grad_norm := 5, num_layers := 2, songlength := 350, hidden_size := 650,
    max_epoch := 6, max_max_epoch := 39, keep_prob := 0.5, lr_decay := 0.9,
    batch_size := 20, vocab_size := 10000 }

/-- Source class `LargeConfig`. -/
def LargeConfig : Config :=
  { init_scale := 0.04, learning_rate := 1.0, d_lr_factor := some 0.5,
    max_grad_norm := 10, num_layers := 2, songlength := 500, hidden_size := 1500,
    max_epoch := 14, max_max_epoch := 55, keep_prob := 0.35, lr_decay := 0.9,
    batch_size := 20, vocab_size := 10000 }

/-- Source class `TestConfig` (it defines no `d_lr_factor`). -/
def TestConfig : Config :=
  { init_scale := 0.1, learning_rate := 1.0, d_lr_factor := none,
    max_grad_norm := 1, num_layers := 1, songlength := 2, hidden_size := 2,
    max_epoch := 1, max_max_epoch := 1, keep_prob := 1.0, lr_decay := 0.5,
    batch_size := 20, vocab_size := 10000 }

/-- Learned parameters of the discriminator sub-network: the per-layer LSTM
cells of the `D` scope and the `decision` affine layer. -/
structure DiscriminatorParams where
  cells : List LSTMParams
  decision : LinearParams

/-- The per-step decisions of `RNNGAN.discriminator` (evaluation path: the
dropout branches are inactive): run the stacked LSTM from the zero state over
the inputs and apply `sigmoid (linear output 1 'decision')` to each step's
top-layer output (coordinate `0` of the one-dimensional `decision` output). -/
def per_step_decisions (cfg : Config) (numfeatures : ℕ) (p : DiscriminatorParams)
    (inputs : List Vec) : List ℝ :=
  let init := List.replicate cfg.num_layers zeroLSTMState
  let outputs := (rnn cfg.hidden_size numfeatures p.cells init inputs).1
  outputs.map (fun out => sigmoid (linear p.decision cfg.hidden_size out 0))

/-- Source method `RNNGAN.discriminator`: the sequence-level decision is
`tf.reduce_mean(tf.pack(decisions))`, the mean of the per-step decisions. -/
def discriminator (cfg : Config) (numfeatures : ℕ) (p : DiscriminatorParams)
    (inputs : List Vec) : ℝ :=
  reduce_mean (per_step_decisions cfg numfeatures p inputs)

/-- The two discriminator invocations of `RNNGAN.__init__` (lines 132-134):
`discriminator_for_real_data` on the real `data_inputs` and
`discriminator_for_generated_data` on the generated sequence.  The source's
`scope.reuse_variables()` between the two calls makes the second invocation
reuse the first invocation's variables, so both use the one parameter record
`p`. -/
def rnngan_discriminator_scores (cfg : Config) (numfeatures : ℕ)
    (p : DiscriminatorParams) (data_inputs generated_inputs : List Vec) : ℝ × ℝ :=
  (discriminator cfg numfeatures p data_inputs,
   discriminator cfg numfeatures p generated_inputs)

/-- `tf.clip_by_value(t, lo, hi) = min(max(t, lo), hi)`. -/
def clip_by_value (x lo hi : ℝ) : ℝ := min (max x lo) hi

/-- The literal `1e-1000` of the loss expressions, as the program evaluates
it: a Python float literal is an IEEE-754 double, and `10 ^ (-1000)` lies
below half the smallest positive subnormal double `2 ^ (-1074)` (see
`literal_1e1000_underflows`), so round-to-nearest makes the literal exactly
`0.0` (and `1.0 - 1e-1000` exactly `1.0`). -/
def clipEps : ℝ := 0

/-- Source expression for `self.d_loss` (line 138), with `real_score` the
scalar `discriminator_for_real_data` and `fake_score` the scalar
`discriminator_for_generated_data`. -/
def d_loss (real_score fake_score : ℝ) : ℝ :=
  reduce_mean_scalar
    (-Real.log (clip_by_value real_score clipEps 1)
      - Real.log (1 - clip_by_value fake_score 0 (1 - clipEps)))

/-- Source expression for `self.g_loss` (line 139). -/
def g_loss (fake_score : ℝ) : ℝ :=
  reduce_mean_scalar (-Real.log (clip_by_value fake_score clipEps 1))

/-- Spec formula, written from the spec's words: discriminator loss
`mean( -log(clip(real_score, 1e-1000, 1.0)) - log(1 - clip(fake_score, 0.0, 1.0 - 1e-1000)) )`. -/
def spec_discriminator_loss (real_score fake_score : ℝ) : ℝ :=
  reduce_mean_scalar
    (-Real.log (clip_by_value real_score clipEps 1)
      - Real.log (1 - clip_by_value fake_score 0 (1 - clipEps)))

/-- Spec formula, written from the spec's words: generator loss
`mean( -log(clip(fake_score, 1e-1000, 1.0)) )`. -/
def spec_generator_loss (fake_score : ℝ) : ℝ :=
  reduce_mean_scalar (-Real.log (clip_by_value fake_score clipEps 1))

/-- Source line 371: `lr_decay = config.lr_decay ** max(i - config.max_epoch, 0.0)`
for epoch index `i` (`i - max_epoch` is Python integer subtraction, so it is
embedded over `ℤ` before the `max` with `0`). -/
def epoch_lr_decay (cfg : Config) (i : ℕ) : ℝ :=
  cfg.lr_decay ^ (max ((i : ℤ) - (cfg.max_epoch : ℤ)) 0).toNat

/-- Source line 372: the learning rate assigned for epoch `i` is
`config.learning_rate * lr_decay`. -/
def epoch_learning_rate (cfg : Config) (i : ℕ) : ℝ :=
  cfg.learning_rate * epoch_lr_decay cfg i

/-- Modelled from the spec's words: decayed learning rate
`base_rate × decay_factor^max(i − decay_start_epoch, 0)`. -/
def spec_decayed_rate (base_rate decay_factor : ℝ) (decay_start_epoch i : ℕ) : ℝ :=
  base_rate * decay_factor ^ (max ((i : ℤ) - (decay_start_epoch : ℤ)) 0).toNat

/-- Source line 394's wall-clock condition at a checkpoint boundary:
`FLAGS.exit_after > 0 and time.time() - train_start_time > FLAGS.exit_after*60`,
with `exit_after` the flag value in minutes and `elapsed_seconds` the value of
`time.time() - train_start_time`. -/
def wall_clock_exit (exit_after : ℤ) (elapsed_seconds : ℝ) : Prop :=
  exit_after > 0 ∧ elapsed_seconds > (exit_after : ℝ) * 60

/-- Outcome of the checkpoint-boundary wall-clock check in `main`. -/
inductive CheckpointOutcome where
  | exitRequested
  | continueTraining
deriving DecidableEq

open Classical in
/-- The controller's decision at a checkpoint boundary (source lines
394-400): request exit exactly when the wall-clock condition holds, otherwise
continue with the next epoch. -/
def checkpoint_boundary (exit_after : ℤ) (elapsed_seconds : ℝ) : CheckpointOutcome :=
  if wall_clock_exit exit_after elapsed_seconds then .exitRequested else .continueTraining

/-- Source function `run_epoch`, abstracted over the per-batch session
results: `batch_losses` lists, in order, the `(g_loss, d_loss)` pair that the
session returns for each batch the loader yields for the split.  The loop
accumulates `g_losses`, `d_losses` and `iters`; when `iters == 0` it returns
`(None, None)` (embedded as `none`), otherwise the pair of averages. -/
def run_epoch (batch_losses : List (ℝ × ℝ)) : Option (ℝ × ℝ) :=
  let acc := batch_losses.foldl
    (fun a gd => (a.1 + gd.1, a.2.1 + gd.2, a.2.2 + 1)) ((0 : ℝ), (0 : ℝ), (0 : ℕ))
  if acc.2.2 = 0 then none else some (acc.1 / (acc.2.2 : ℝ), acc.2.1 / (acc.2.2 : ℝ))

/-- Modelled Python `%` string formatting of one `%.3f` conversion: a float
formats successfully; `None` raises `TypeError` (as in
`"... G: %.3f, D: %.3f" % (i+1, train_g_loss, train_d_loss)` when
`run_epoch` returned `(None, None)`). -/
def format_f3 : Option ℝ → Except String Unit
  | none => .error "TypeError: float argument required, not NoneType"
  | some _ => .ok ()

/-- The loss print of `main` directly after `run_epoch` (source lines
375-378): both components of the returned pair are formatted with `%.3f`,
with no `None` check in between. -/
def epoch_losses_line (r : Option (ℝ × ℝ)) : Except String Unit := do
  format_f3 (r.map Prod.fst)
  format_f3 (r.map Prod.snd)

/-- One epoch's train pass followed by the loss print, as `main` performs
them: run `run_epoch` over the batches the train split yields, then format
the two results. -/
def epoch_step (train_batch_losses : List (ℝ × ℝ)) : Except String Unit :=
  epoch_losses_line (run_epoch train_batch_losses)

/-- The session-visible training-run variables of `RNNGAN.__init__`:
`global_step = tf.Variable(0, trainable=False)` (line 89), the learning-rate
variable `_lr`, and the trainable model parameters (abstracted as a value of
type `P`). -/
structure SessionState (P : Type) where
  global_step : ℕ
  lr : ℝ
  params : P

/-- The freshly initialized session state: `global_step` starts at `0`. -/
def initial_session {P : Type} (p0 : P) : SessionState P :=
  { global_step := 0, lr := 0.0, params := p0 }

/-- The operations the training loop runs against the session: `opt_d` and
`opt_g` (each a `GradientDescentOptimizer.apply_gradients` over its parameter
group, called without a `global_step` argument, so neither increments it) and
`_lr_update` (`tf.assign(self._lr, self._new_lr)`). -/
inductive SessionOp (P : Type) where
  | opt_d (update : P → P)
  | opt_g (update : P → P)
  | lr_update (new_lr : ℝ)

/-- Effect of one session operation on the session state. -/
def apply_op {P : Type} (s : SessionState P) : SessionOp P → SessionState P
  | .opt_d u => { s with params := u s.params }
  | .opt_g u => { s with params := u s.params }
  | .lr_update v => { s with lr := v }

/-- Run a sequence of session operations (the whole training run, in order). -/
def run_session_ops {P : Type} (s : SessionState P) (ops : List (SessionOp P)) :
    SessionState P :=
  ops.foldl apply_op s

/-- The global-step value recorded at a checkpoint event: it is both passed
to `saver.save(session, checkpoint_path, global_step=m.global_step)` (line
382) and written as the first column of the metrics log line via
`m.global_step.eval()` (line 389). -/
def checkpoint_recorded_step {P : Type} (s : SessionState P) : ℕ :=
  s.global_step

/-- The command-line flags of the source (`tf.flags` definitions, lines
51-64).  `datadir` and `traindir` default to `None`; a present-but-empty
string is also falsy in the Python checks of `main`. -/
structure Flags where
  model : String
  datadir : Option String
  traindir : Option String
  epochs_per_checkpoint : ℤ
  call_after : Option String
  exit_after : ℤ
  select_validation_percentage : Option ℤ
  select_test_percentage : Option ℤ

/-- Python truthiness of an optional string flag: `not FLAGS.datadir` is true
when the flag is `None` or the empty string. -/
def is_falsy : Option String → Bool
  | none => true
  | some s => s.isEmpty

/-- Source function `get_config`: select the configuration class by the
`model` flag, raising `ValueError` for any other name. -/
def get_config (model : String) : Except String Config :=
  if model = "small" then .ok SmallConfig
  else if model = "medium" then .ok MediumConfig
  else if model = "large" then .ok LargeConfig
  else if model = "test" then .ok TestConfig
  else .error ("Invalid model: " ++ model)

/-- Outcome of the startup phase of `main`: either a raised fatal error, or
the pair of configurations (`config` and `eval_config`, whose `batch_size` is
set to `1`) with which the graph is then built and training begins. -/
inductive StartupOutcome where
  | fatal (msg : String)
  | ready (config eval_config : Config)

/-- The startup phase of `main` (lines 326-337): check `datadir`, then
`traindir`, then select the configuration (`get_config` is called twice in
the source, returning equal configurations; `eval_config.batch_size` is then
set to `1`).  Only a `ready` outcome proceeds to graph construction,
directory creation and the training loop; a `fatal` outcome is a raised
`ValueError` before any of those. -/
def main_startup (fl : Flags) : StartupOutcome :=
  if is_falsy fl.datadir then .fatal "Must set --datadir to midi music dir."
  else if is_falsy fl.traindir then
    .fatal "Must set --traindir to dir where I can save model and plots."
  else
    match get_config fl.model with
    | .error msg => .fatal msg
    | .ok cfg => .ready cfg { cfg with batch_size := 1 }

/-- A concrete all-zero discriminator parameter record, used to instantiate
theorems at a concrete input. -/
def trivial_disc_params : DiscriminatorParams :=
  { cells := [], decision := { w := fun _ _ => 0, b := fun _ => 0 } }

/-- A concrete flag record with a missing `datadir` (its default `None`). -/
def demo_flags : Flags :=
  { model := "small", datadir := none, traindir := some "/tmp/train",
    epochs_per_checkpoint := 10, call_after := none, exit_after := 200,
    select_validation_percentage := none, select_test_percentage := none }

/-! ### Helper lemmas -/

theorem literal_1e1000_underflows :
    (1 : ℝ) / 10 ^ (1000 : ℕ) < 1 / 2 ^ (1075 : ℕ) := by
  rw [div_lt_div_iff₀ (by positivity) (by positivity)]
  norm_num

theorem sigmoid_pos (x : ℝ) : 0 < sigmoid x := by
  unfold sigmoid
  positivity

theorem sigmoid_le_one (x : ℝ) : sigmoid x ≤ 1 := by
  unfold sigmoid
  rw [div_le_one (by positivity)]
  have := Real.exp_pos (-x)
  linarith

theorem reduce_mean_mem_Icc (l : List ℝ) (hne : l ≠ [])
    (h0 : ∀ x ∈ l, 0 ≤ x) (h1 : ∀ x ∈ l, x ≤ 1) :
    0 ≤ reduce_mean l ∧ reduce_mean l ≤ 1 := by
  have hlen : 0 < (l.length : ℝ) := by
    exact_mod_cast List.length_pos.mpr hne
  have hsum0 : 0 ≤ l.sum := List.sum_nonneg h0
  have hsum1 : l.sum ≤ (l.length : ℝ) := by
    have h := List.sum_le_card_nsmul l 1 h1
    simpa [nsmul_eq_mul] using h
  unfold reduce_mean
  exact ⟨div_nonneg hsum0 hlen.le, (div_le_one hlen).mpr hsum1⟩

theorem rnn_outputs_length (hS iS : ℕ) (layers : List LSTMParams)
    (states : List LSTMState) (xs : List Vec) :
    ((rnn hS iS layers states xs).1).length = xs.length := by
  induction xs generalizing states with
  | nil => simp [rnn]
  | cons x xs ih => simp [rnn, ih]

theorem per_step_decisions_length (cfg : Config) (nf : ℕ)
    (p : DiscriminatorParams) (inputs : List Vec) :
    (per_step_decisions cfg nf p inputs).length = inputs.length := by
  unfold per_step_decisions
  simp [rnn_outputs_length]

theorem run_epoch_foldl (l : List (ℝ × ℝ)) (a b : ℝ) (n : ℕ) :
    l.foldl (fun a gd => (a.1 + gd.1, a.2.1 + gd.2, a.2.2 + 1)) (a, b, n)
      = (a + (l.map Prod.fst).sum, b + (l.map Prod.snd).sum, n + l.length) := by
  induction l generalizing a b n with
  | nil => simp
  | cons x xs ih =>
    simp only [List.foldl_cons, List.map_cons, List.sum_cons, List.length_cons, ih,
      Prod.mk.injEq]
    refine ⟨by ring, by ring, by omega⟩

theorem apply_op_global_step {P : Type} (s : SessionState P) (op : SessionOp P) :
    (apply_op s op).global_step = s.global_step := by
  cases op <;> rfl

/-! ### Claim theorems -/

/-- Claim C1: for every pair of discriminator scores `real_score` and
`fake_score`, the discriminator loss computed in `RNNGAN.__init__` equals the
spec formula `mean( -log(clip(real_score, 1e-1000, 1.0)) - log(1 -
clip(fake_score, 0.0, 1.0 - 1e-1000)) )`, and the generator loss equals the
spec formula `mean( -log(clip(fake_score, 1e-1000, 1.0)) )`, exactly as these
formulas are written. -/
theorem C1_loss_formulas (real_score fake_score : ℝ) :
    d_loss real_score fake_score = spec_discriminator_loss real_score fake_score
    ∧ g_loss fake_score = spec_generator_loss fake_score :=
  ⟨rfl, rfl⟩

/-- Claim C2: for every epoch index `i`, the learning rate assigned in `main`
equals the spec formula `base_rate × decay_factor^max(i − decay_start_epoch, 0)`;
in particular, for `lr_decay = 0.9` and `max_epoch = 4`, epoch index 6 yields
`base × 0.9^2` and epoch index 2 yields `base × 0.9^0 = base`. -/
theorem C2_learning_rate_decay (cfg : Config) (i : ℕ) :
    epoch_learning_rate cfg i
        = spec_decayed_rate cfg.learning_rate cfg.lr_decay cfg.max_epoch i
    ∧ (cfg.lr_decay = 0.9 → cfg.max_epoch = 4 →
        epoch_learning_rate cfg 6 = cfg.learning_rate * (0.9 : ℝ) ^ 2
        ∧ epoch_learning_rate cfg 2 = cfg.learning_rate) := by
  refine ⟨rfl, fun h9 h4 => ⟨?_, ?_⟩⟩
  · have h6 : (max (((6 : ℕ) : ℤ) - ((4 : ℕ) : ℤ)) 0).toNat = 2 := by decide
    rw [epoch_learning_rate, epoch_lr_decay, h9, h4, h6]
  · have h2 : (max (((2 : ℕ) : ℤ) - ((4 : ℕ) : ℤ)) 0).toNat = 0 := by decide
    rw [epoch_learning_rate, epoch_lr_decay, h9, h4, h2, pow_zero, mul_one]

/-- Witness for C2 at the concrete configuration `SmallConfig`
(`lr_decay = 0.9`, `max_epoch = 4`) and epoch index 6. -/
theorem C2_learning_rate_decay_witness :
    epoch_learning_rate SmallConfig 6 = SmallConfig.learning_rate * (0.9 : ℝ) ^ 2 :=
  (((C2_learning_rate_decay SmallConfig 6).2) rfl rfl).1

/-- Claim C7 fails on the code: the Python literal `1e-1000` is an IEEE-754
double and underflows to exactly `0.0` (its real value sits below half the
smallest positive subnormal, `literal_1e1000_underflows`), so the lower clip
bound applied before each logarithm is zero, not strictly positive, and the
logarithm of zero is reachable: at the score inputs `real_score = 0` and
`fake_score = 1` (both in `[0, 1]`), both logarithm arguments of `d_loss` are
exactly `0`. -/
theorem C7_log_zero_reachable :
    ¬ 0 < clipEps
    ∧ clip_by_value 0 clipEps 1 = 0
    ∧ 1 - clip_by_value 1 0 (1 - clipEps) = 0
    ∧ d_loss 0 1 = reduce_mean_scalar (-Real.log 0 - Real.log 0) := by
  have h0 : clipEps = 0 := rfl
  have hc1 : clip_by_value 0 clipEps 1 = 0 := by
    simp [clip_by_value, h0]
  have hc2 : (1 : ℝ) - clip_by_value 1 0 (1 - clipEps) = 0 := by
    simp [clip_by_value, h0]
  refine ⟨by simp [h0], hc1, hc2, ?_⟩
  simp only [d_loss, hc1, hc2]

/-- Counterexample to claim C3: with the exit-after ceiling set to 0 minutes
and a full hour of wall-clock time elapsed at the first checkpoint boundary,
the controller does NOT transition to `ExitRequested` — it continues training,
because the source guards the check with `FLAGS.exit_after > 0`. -/
theorem C3_counterexample :
    checkpoint_boundary 0 3600 = CheckpointOutcome.continueTraining := by
  unfold checkpoint_boundary
  rw [if_neg]
  intro h
  exact lt_irrefl 0 h.1

/-- Amended claim C3: when the exit-after ceiling is 0 minutes, the wall-clock
check is disabled and the controller continues training at every checkpoint
boundary regardless of elapsed time; for every strictly positive ceiling `m`,
the controller transitions to `ExitRequested` at a checkpoint boundary exactly
when the elapsed wall-clock seconds exceed `m * 60`. -/
theorem C3_amended (elapsed : ℝ) (m : ℤ) (hm : 0 < m) :
    checkpoint_boundary 0 elapsed = CheckpointOutcome.continueTraining
    ∧ (checkpoint_boundary m elapsed = CheckpointOutcome.exitRequested
        ↔ elapsed > (m : ℝ) * 60) := by
  constructor
  · unfold checkpoint_boundary
    rw [if_neg]
    intro h
    exact lt_irrefl 0 h.1
  · unfold checkpoint_boundary
    by_cases h : elapsed > (m : ℝ) * 60
    · rw [if_pos ⟨hm, h⟩]
      simp [h]
    · rw [if_neg (fun hc => h hc.2)]
      simp [h]

/-- Witness for the amended C3 at ceiling 2 minutes and 150 elapsed
seconds. -/
theorem C3_amended_witness :
    checkpoint_boundary 0 150 = CheckpointOutcome.continueTraining :=
  (C3_amended 150 2 (by decide)).1

/-- Claim C4: the two discriminator invocations of one training step use one
shared parameter record (the pair of scores is the one function
`discriminator` applied twice with the same `p`), and invoking the
discriminator twice with identical input sequences and unchanged parameters
yields identical scores (determinism of the embedded evaluation-time score
function). -/
theorem C4_shared_params_deterministic (cfg : Config) (nf : ℕ)
    (p q : DiscriminatorParams) (real_in gen_in xs ys : List Vec)
    (hpq : p = q) (hxy : xs = ys) :
    rnngan_discriminator_scores cfg nf p real_in gen_in
        = (discriminator cfg nf p real_in, discriminator cfg nf p gen_in)
    ∧ discriminator cfg nf p xs = discriminator cfg nf q ys := by
  refine ⟨rfl, ?_⟩
  rw [hpq, hxy]

/-- Witness for C4 at the concrete `TestConfig`, the all-zero parameter
record and a one-step zero input sequence. -/
theorem C4_shared_params_deterministic_witness :
    discriminator TestConfig 4 trivial_disc_params [zeroVec]
      = discriminator TestConfig 4 trivial_disc_params [zeroVec] :=
  (C4_shared_params_deterministic TestConfig 4 trivial_disc_params
    trivial_disc_params [zeroVec] [zeroVec] [zeroVec] [zeroVec] rfl rfl).2

/-- Claim C5: for every nonempty finite input sequence, the discriminator's
sequence-level score equals the arithmetic mean of the per-step logistic
outputs, and the score lies in the closed interval `[0, 1]`. -/
theorem C5_score_is_mean_in_unit_interval (cfg : Config) (nf : ℕ)
    (p : DiscriminatorParams) (inputs : List Vec) (h : inputs ≠ []) :
    discriminator cfg nf p inputs = reduce_mean (per_step_decisions cfg nf p inputs)
    ∧ 0 ≤ discriminator cfg nf p inputs
    ∧ discriminator cfg nf p inputs ≤ 1 := by
  refine ⟨rfl, ?_⟩
  have hne : per_step_decisions cfg nf p inputs ≠ [] := by
    have hlen : (per_step_decisions cfg nf p inputs).length = inputs.length :=
      per_step_decisions_length cfg nf p inputs
    intro hnil
    rw [hnil] at hlen
    exact h (List.eq_nil_of_length_eq_zero hlen.symm)
  have h0 : ∀ x ∈ per_step_decisions cfg nf p inputs, 0 ≤ x := by
    intro x hx
    unfold per_step_decisions at hx
    simp only [List.mem_map] at hx
    obtain ⟨o, _, rfl⟩ := hx
    exact (sigmoid_pos _).le
  have h1 : ∀ x ∈ per_step_decisions cfg nf p inputs, x ≤ 1 := by
    intro x hx
    unfold per_step_decisions at hx
    simp only [List.mem_map] at hx
    obtain ⟨o, _, rfl⟩ := hx
    exact sigmoid_le_one _
  exact reduce_mean_mem_Icc _ hne h0 h1

/-- Witness for C5 at the concrete `TestConfig`, the all-zero parameter
record and a one-step zero input sequence. -/
theorem C5_score_is_mean_in_unit_interval_witness :
    0 ≤ discriminator TestConfig 4 trivial_disc_params [zeroVec]
    ∧ discriminator TestConfig 4 trivial_disc_params [zeroVec] ≤ 1 :=
  (C5_score_is_mean_in_unit_interval TestConfig 4 trivial_disc_params [zeroVec]
    (by simp)).2

/-- Claim C6: a full epoch pass over a split that yields zero batches returns
the distinguished `none` result (source: `(None, None)`), which differs from
every zero-loss result `some (0, 0)`; for every split yielding at least one
batch, the pass returns the arithmetic means of the per-batch generator and
discriminator losses. -/
theorem C6_run_epoch_none_or_mean (l : List (ℝ × ℝ)) (hl : l ≠ []) :
    run_epoch [] = none
    ∧ (∀ g d : ℝ, run_epoch [] ≠ some (g, d))
    ∧ run_epoch l
        = some ((l.map Prod.fst).sum / (l.length : ℝ),
                (l.map Prod.snd).sum / (l.length : ℝ)) := by
  refine ⟨rfl, fun g d h => Option.noConfusion h, ?_⟩
  unfold run_epoch
  rw [run_epoch_foldl]
  have hlen : 0 + l.length ≠ 0 := by
    simpa using fun hz => hl (List.eq_nil_of_length_eq_zero hz)
  rw [if_neg hlen]
  norm_num

/-- Witness for C6 at the concrete one-batch loss list `[(3, 4)]`. -/
theorem C6_run_epoch_none_or_mean_witness :
    run_epoch [((3 : ℝ), (4 : ℝ))] = some (3, 4) := by
  have h := (C6_run_epoch_none_or_mean [((3 : ℝ), (4 : ℝ))] (by simp)).2.2
  simpa using h

/-- Claim C8: for every invocation with an invalid model-size name or with a
missing (falsy) `datadir` or `traindir` flag, startup ends in a raised fatal
error, and never in the `ready` outcome from which graph construction,
directory creation and training proceed. -/
theorem C8_config_errors_fatal (fl : Flags)
    (h : is_falsy fl.datadir = true ∨ is_falsy fl.traindir = true
        ∨ fl.model ∉ (["small", "medium", "large", "test"] : List String)) :
    (∃ msg, main_startup fl = StartupOutcome.fatal msg)
    ∧ ∀ cfg ecfg, main_startup fl ≠ StartupOutcome.ready cfg ecfg := by
  have hfatal : ∃ msg, main_startup fl = StartupOutcome.fatal msg := by
    unfold main_startup
    by_cases h1 : is_falsy fl.datadir
    · rw [if_pos h1]
      exact ⟨_, rfl⟩
    · rw [if_neg h1]
      by_cases h2 : is_falsy fl.traindir
      · rw [if_pos h2]
        exact ⟨_, rfl⟩
      · rw [if_neg h2]
        have hm : fl.model ∉ (["small", "medium", "large", "test"] : List String) := by
          rcases h with h | h | h
          · exact absurd h (by simpa using h1)
          · exact absurd h (by simpa using h2)
          · exact h
        have hs : fl.model ≠ "small" := fun hh => hm (by simp [hh])
        have hme : fl.model ≠ "medium" := fun hh => hm (by simp [hh])
        have hla : fl.model ≠ "large" := fun hh => hm (by simp [hh])
        have hte : fl.model ≠ "test" := fun hh => hm (by simp [hh])
        have hg : get_config fl.model = .error ("Invalid model: " ++ fl.model) := by
          unfold get_config
          rw [if_neg hs, if_neg hme, if_neg hla, if_neg hte]
        rw [hg]
        exact ⟨_, rfl⟩
  refine ⟨hfatal, ?_⟩
  intro cfg ecfg heq
  obtain ⟨msg, hmsg⟩ := hfatal
  rw [heq] at hmsg
  exact StartupOutcome.noConfusion hmsg

/-- Witness for C8 at the concrete flag record `demo_flags`, whose `datadir`
is its default `None`. -/
theorem C8_config_errors_fatal_witness :
    (∃ msg, main_startup demo_flags = StartupOutcome.fatal msg)
    ∧ ∀ cfg ecfg, main_startup demo_flags ≠ StartupOutcome.ready cfg ecfg :=
  C8_config_errors_fatal demo_flags (Or.inl rfl)

/-- Claim C9 (implicit): the global-step counter is initialized to 0 and no
session operation of the training loop (`opt_d`, `opt_g`, `_lr_update`)
increments it, so after any sequence of operations the global step recorded
in the metrics log line and attached to the saved checkpoint is 0. -/
theorem C9_global_step_always_zero (P : Type) (p0 : P) (ops : List (SessionOp P)) :
    checkpoint_recorded_step (run_session_ops (initial_session p0) ops) = 0 := by
  suffices hgen : ∀ s : SessionState P,
      (run_session_ops s ops).global_step = s.global_step by
    exact hgen (initial_session p0)
  induction ops with
  | nil => intro s; rfl
  | cons op rest ih =>
    intro s
    show (run_session_ops (apply_op s op) rest).global_step = s.global_step
    rw [ih (apply_op s op), apply_op_global_step]

/-- Claim C10 (implicit): when a split yields zero batches, `run_epoch`
returns `(None, None)`, and the controller's immediate `%.3f` formatting of
these values fails with a `TypeError`, so the run errors out at that point
instead of continuing. -/
theorem C10_none_result_unhandled :
    run_epoch [] = none
    ∧ epoch_step [] = Except.error "TypeError: float argument required, not NoneType" :=
  ⟨rfl, rfl⟩

end

end RnnGan
